import Mathlib

/-!
Verification of the plugnfce-api NFC-e emission pipeline.

Shallow embedding of the Go sources:
* access-key generation and check digit (`GenerateChaveAcesso`, `CalculateDV`,
  `getCUF`, `getMunicipioFG`, `cleanNumericOnly` from the XML builder);
* SEFAZ response classification (`determineStatus`, `IsRetryableError`,
  `shouldUseContingency`) and the worker retry machinery
  (`CanRetry`, `IncrementRetry`, `scheduleRetry`, `calculateBackoffDelay`);
* the intake use case (`EmitNFce`) with gin binding validation and the
  `idempotency_key` UNIQUE constraint from migration 000001;
* the XMLDSig enveloped-signature structure (`createSignature`,
  `createSignedInfo`, `createKeyInfo`).

Machine integers are modelled as `Nat`/`Int` (the Go code never overflows the
quantities involved), durations as whole seconds, and monetary `float64`
fields as `Rat` (the intake path stores them without arithmetic).
-/

namespace PlugNFCe

/-- Go `fmt` zero padding: `%0Ns` pads `s` on the left with `'0'` up to width
`w`; longer strings are left untouched (width is a minimum, never truncating). -/
def padLeftZero (w : Nat) (s : String) : String :=
  if s.length < w then String.mk (List.replicate (w - s.length) '0') ++ s else s

/-- `cleanNumericOnly` from the XML builder: keep only ASCII digits. -/
def cleanNumericOnly (s : String) : String :=
  String.mk (s.data.filter (fun r => '0' ≤ r ∧ r ≤ '9'))

/-- The `ufCodes` map literal of `getCUF`. -/
def ufCodes : List (String × String) :=
  [("AC", "12"), ("AL", "27"), ("AP", "16"), ("AM", "13"), ("BA", "29"),
   ("CE", "23"), ("DF", "53"), ("ES", "32"), ("GO", "52"), ("MA", "21"),
   ("MT", "51"), ("MS", "50"), ("MG", "31"), ("PA", "15"), ("PB", "25"),
   ("PR", "41"), ("PE", "26"), ("PI", "22"), ("RJ", "33"), ("RN", "24"),
   ("RS", "43"), ("RO", "11"), ("RR", "14"), ("SC", "42"), ("SP", "35"),
   ("SE", "28"), ("TO", "17")]

/-- `getCUF`: federal-unit code, defaulting to `"35"` (SP) for unknown UFs. -/
def getCUF (uf : String) : String :=
  (ufCodes.lookup uf).getD "35"

/-- The `municipios` map literal of `getMunicipioFG` (capital of each UF). -/
def municipios : List (String × String) :=
  [("AC", "1200401"), ("AL", "2704302"), ("AP", "1600303"), ("AM", "1302603"), ("BA", "2927408"),
   ("CE", "2304400"), ("DF", "5300108"), ("ES", "3205309"), ("GO", "5208707"), ("MA", "2111300"),
   ("MT", "5103403"), ("MS", "5002704"), ("MG", "3106200"), ("PA", "1501402"), ("PB", "2507507"),
   ("PR", "4106902"), ("PE", "2611606"), ("PI", "2211001"), ("RJ", "3304557"), ("RN", "2408102"),
   ("RS", "4314902"), ("RO", "1100205"), ("RR", "1400100"), ("SC", "4205407"), ("SP", "3550308"),
   ("SE", "2800308"), ("TO", "1721000")]

/-- `getMunicipioFG`: municipality code, defaulting to `"3550308"` (São Paulo). -/
def getMunicipioFG (uf : String) : String :=
  (municipios.lookup uf).getD "3550308"

/-- The `weights` slice of `CalculateDV`. -/
def dvWeights : List Nat := [2, 3, 4, 5, 6, 7, 8, 9]

/-- Go `int(chave[i] - '0')` for the digit characters of an access key. -/
def digitVal (c : Char) : Nat := c.toNat - '0'.toNat

/-- The weighted sum of `CalculateDV`: position `j` from the right (j = 42 - i)
gets weight `weights[j % 8]`. -/
def dvTotal (chave : String) : Nat :=
  (chave.data.reverse.enum.map (fun p => digitVal p.2 * dvWeights.getD (p.1 % 8) 0)).sum

/-- `CalculateDV` from the XML builder: mod-11 check digit over a 43-character
key, weights cycling 2..9 from right to left; remainders 0 and 1 collapse to
`"0"`, otherwise `11 - remainder`; any other length returns `"0"`. -/
def CalculateDV (chave : String) : String :=
  if chave.length = 43 then
    if dvTotal chave % 11 = 0 ∨ dvTotal chave % 11 = 1 then "0"
    else Nat.repr (11 - dvTotal chave % 11)
  else "0"

/-- Go `dhEmi.Format("0601")`: two-digit year followed by two-digit month. -/
def format0601 (year month : Nat) : String :=
  padLeftZero 2 (Nat.repr (year % 100)) ++ padLeftZero 2 (Nat.repr month)

/-- `GenerateChaveAcesso` from the XML builder: rejects a cleaned CNPJ that is
not 14 digits, then lays out
`cUF(2) aamm(4) cnpj(14) "65" serie(3) nNF(9) tpEmis(1) cNF(8)` via Go's
zero-padding `fmt` verbs and appends the check digit.  `dhEmi` is represented
by its year and month. -/
def GenerateChaveAcesso (uf cnpj serie nNF tpEmis cNF : String) (year month : Nat) :
    Option String :=
  let cUF := getCUF uf
  let aamm := format0601 year month
  let cleanCNPJ := cleanNumericOnly cnpj
  if cleanCNPJ.length = 14 then
    let chave := padLeftZero 2 cUF ++ padLeftZero 4 aamm ++ padLeftZero 14 cleanCNPJ ++ "65"
      ++ padLeftZero 3 serie ++ padLeftZero 9 nNF ++ padLeftZero 1 tpEmis ++ padLeftZero 8 cNF
    some (chave ++ CalculateDV chave)
  else none

/-! ### SEFAZ response classification (soapclient) -/

/-- Go bytewise lexicographic `<` on strings, written out on the char lists
(for the ASCII status codes involved this agrees with Go's byte order). -/
def goCmpLt : List Char → List Char → Bool
  | [], [] => false
  | [], _ :: _ => true
  | _ :: _, [] => false
  | a :: as, b :: bs => if a < b then true else if b < a then false else goCmpLt as bs

/-- Go `s <= t` on strings. -/
def goStrLe (s t : String) : Bool := !(goCmpLt t.data s.data)

/-- The `case` list of `determineStatus` that yields `"authorized"`. -/
def authorizedCodes : List String :=
  ["100", "101", "102", "103", "104", "105", "106", "107", "108", "109", "150"]

/-- The `case` list of `determineStatus` that yields `"denied"`. -/
def deniedCodes : List String :=
  ["110", "111", "112", "113", "114", "115", "116", "117", "118", "119"]

/-- `determineStatus` from the SOAP client: classifies a `cStat` string. -/
def determineStatus (cstat : String) : String :=
  if authorizedCodes.contains cstat then "authorized"
  else if deniedCodes.contains cstat then "denied"
  else "error"

/-- The `retryableCodes` map literal of `IsRetryableError`. -/
def retryableCodes : List String :=
  ["108", "109", "500", "503", "301", "302", "691", "692", "693", "204", "539"]

/-- `IsRetryableError` from the SOAP client: the 5xx string range is retryable,
then the explicit code table is consulted. -/
def IsRetryableError (cstat : String) : Bool :=
  if goStrLe "500" cstat && goStrLe cstat "599" then true
  else retryableCodes.contains cstat

/-- The `contingencyCodes` map literal of `shouldUseContingency`. -/
def contingencyCodes : List String := ["108", "109", "691", "692", "693"]

/-- `shouldUseContingency` from the worker service. -/
def shouldUseContingency (cstat : String) : Bool :=
  if goStrLe "500" cstat && goStrLe cstat "599" then true
  else contingencyCodes.contains cstat

/-! ### Domain entity and worker retry machinery -/

/-- `RequestStatus` constants from the entity package. -/
inductive RequestStatus where
  | pending
  | processing
  | authorized
  | rejected
  | contingency
  | retrying
  | canceled
deriving DecidableEq, Repr

/-- `Emitente` from the dto package (issuer data). -/
structure Emitente where
  cnpj : String
  ie : String
  regime : String
  cscID : String
  cscToken : String
deriving DecidableEq, Repr

/-- `Item` from the dto package.  The `float64` monetary fields are modelled
as `Rat`; the intake path stores them without arithmetic. -/
structure Item where
  descricao : String
  ncm : String
  cfop : String
  gtin : String
  valor : Rat
  quantidade : Rat
  unidade : String
deriving DecidableEq, Repr

/-- `Payment` from the dto package. -/
structure Payment where
  forma : String
  valor : Rat
  troco : Rat
deriving DecidableEq, Repr

/-- `EmitOptions` from the dto package. -/
structure EmitOptions where
  contingencia : Bool
  sync : Bool
deriving DecidableEq, Repr

/-- `EmitNFceRequest` from the dto package (the intake JSON body). -/
structure EmitNFceRequest where
  uf : String
  ambiente : String
  emitente : Emitente
  itens : List Item
  pagamentos : List Payment
  options : EmitOptions
deriving DecidableEq, Repr

/-- The `NFCE` entity, restricted to the fields the verified claims touch.
`Payload` is represented by the emission request itself (the Go mapper copies
the dto field-by-field into `EmitPayload`); timestamps are whole seconds. -/
structure NFCE where
  id : String
  idempotencyKey : String
  status : RequestStatus
  payload : EmitNFceRequest
  rejectionCode : String
  rejectionMsg : String
  cstat : String
  xmotivo : String
  retryCount : Nat
  nextRetryAt : Option Nat
  inContingency : Bool
  contingencyType : String
  createdAt : Nat
deriving DecidableEq, Repr

/-- `NFCE.MarkAsRejected` from the entity package. -/
def MarkAsRejected (n : NFCE) (cstat xmotivo : String) : NFCE :=
  { n with
    status := .rejected
    cstat := cstat
    xmotivo := xmotivo
    rejectionCode := cstat
    rejectionMsg := xmotivo }

/-- `NFCE.MarkAsContingency` from the entity package. -/
def MarkAsContingency (n : NFCE) (contingencyType : String) : NFCE :=
  { n with
    status := .contingency
    inContingency := true
    contingencyType := contingencyType }

/-- `NFCE.IncrementRetry` from the entity package. -/
def IncrementRetry (n : NFCE) : NFCE :=
  { n with retryCount := n.retryCount + 1, status := .retrying }

/-- `NFCE.CanRetry` from the entity package: no retry once authorized or
canceled, once `RetryCount` reaches `maxRetries`, or once the request is
older than 48 hours. -/
def CanRetry (n : NFCE) (maxRetries : Nat) (now : Nat) : Bool :=
  if n.status = .authorized ∨ n.status = .canceled then false
  else if maxRetries ≤ n.retryCount then false
  else if 48 * 3600 < now - n.createdAt then false
  else true

/-- The `baseDelays` slice of `calculateBackoffDelay`, in seconds:
1m, 5m, 15m, 1h, 6h, 24h. -/
def baseDelays : List Nat := [60, 300, 900, 3600, 21600, 86400]

/-- Go slice indexing: `none` models the out-of-range panic (negative index
included). -/
def goSliceGet (xs : List Nat) (i : Int) : Option Nat :=
  if 0 ≤ i then xs.get? i.toNat else none

/-- `calculateBackoffDelay` from the worker: index `retryCount - 1` of the
six-element table when `retryCount <= 6`, else a 24-hour cap. -/
def calculateBackoffDelay (retryCount : Int) : Option Nat :=
  if retryCount ≤ 6 then goSliceGet baseDelays (retryCount - 1)
  else some 86400

/-- `scheduleRetry` from the worker: increment the retry counter, compute the
backoff from the incremented counter, stamp `NextRetryAt`, status `retrying`. -/
def scheduleRetry (n : NFCE) (now : Nat) : Option NFCE :=
  let n1 := IncrementRetry n
  match calculateBackoffDelay (n1.retryCount : Int) with
  | none => none
  | some d => some { n1 with nextRetryAt := some (now + d), status := .retrying }

/-- The failure branch of the worker's `handleMessage`: schedule a retry while
`CanRetry` allows it, otherwise mark the request rejected with the synthetic
budget-exhausted reason. -/
def handleEmissionFailure (n : NFCE) (maxRetries now : Nat) : Option NFCE :=
  if CanRetry n maxRetries now then scheduleRetry n now
  else some (MarkAsRejected n "999" "Número máximo de tentativas excedido")

/-- The outcome of step 8 of `processNFceEmissionWithContingency` for one
SEFAZ response. -/
inductive EmissionOutcome where
  | authorizedOutcome
  | deniedOutcome
  | contingencySwitch (contingencyType : String)
  | retryableFailure
  | nonRetryableRejected
deriving DecidableEq, Repr

/-- The contingency kind chosen by `tryContingency`: SVC-RS for RS, SVC-AN
otherwise. -/
def contingencyTypeFor (uf : String) : String :=
  if uf = "RS" then "SVC-RS" else "SVC-AN"

/-- Step 8 of `processNFceEmissionWithContingency`: switch on the status set by
`determineStatus`, then try the contingency switch, then distinguish
retryable from non-retryable errors. -/
def responseDecision (uf : String) (contingency : Bool) (cstat : String) :
    EmissionOutcome :=
  if determineStatus cstat = "authorized" then .authorizedOutcome
  else if determineStatus cstat = "denied" then .deniedOutcome
  else if shouldUseContingency cstat && !contingency then
    .contingencySwitch (contingencyTypeFor uf)
  else if IsRetryableError cstat then .retryableFailure
  else .nonRetryableRejected

/-! ### Intake: HTTP handler, gin binding, EmitNFce use case -/

/-- The result of an intake submission: a 400-class error, a 202 with the
created record, or the view of an existing record. -/
inductive IntakeResult where
  | badRequest (msg : String)
  | accepted (n : NFCE)
  | existingView (n : NFCE)
deriving DecidableEq, Repr

/-- `GetByIdempotencyKey`: first stored request with the given key. -/
def findByKey (store : List NFCE) (key : String) : Option NFCE :=
  store.find? (fun n => n.idempotencyKey == key)

/-- Number of stored requests carrying a given idempotency key. -/
def countKey (store : List NFCE) (key : String) : Nat :=
  (store.filter (fun n => n.idempotencyKey == key)).length

/-- The zero value of `Emitente` (gin's `required` on a struct field checks
against it). -/
def emptyEmitente : Emitente := ⟨"", "", "", "", ""⟩

/-- The gin binding tags of `EmitNFceRequest`: `uf` required,
`ambiente` required and `oneof=producao homologacao`, `emitente` required,
`itens` and `pagamentos` required with `min=1`.  No tag constrains the
payment or item amounts. -/
def validateBinding (req : EmitNFceRequest) : Bool :=
  req.uf != "" &&
  (req.ambiente == "producao" || req.ambiente == "homologacao") &&
  req.emitente != emptyEmitente &&
  !req.itens.isEmpty &&
  !req.pagamentos.isEmpty

/-- The fresh `entity.Request` built by the use case (status `pending`). -/
def newRequest (key : String) (req : EmitNFceRequest) (newId : String)
    (now : Nat) : NFCE :=
  { id := newId
    idempotencyKey := key
    status := .pending
    payload := req
    rejectionCode := ""
    rejectionMsg := ""
    cstat := ""
    xmotivo := ""
    retryCount := 0
    nextRetryAt := none
    inContingency := false
    contingencyType := ""
    createdAt := now }

/-- `repo.Create` against the `nfce_requests` table: migration 000001 declares
`idempotency_key VARCHAR(255) NOT NULL UNIQUE`, so inserting a duplicate key
fails with a constraint violation. -/
def repoCreate (store : List NFCE) (n : NFCE) : Except String (List NFCE) :=
  if store.any (fun m => m.idempotencyKey == n.idempotencyKey) then
    Except.error "duplicate key value violates unique constraint"
  else Except.ok (n :: store)

/-- The tail of the use case: persist the new request and (on success) publish
the emit message; a failed publish does not fail the request. -/
def createAndPublish (store : List NFCE) (key : String) (req : EmitNFceRequest)
    (newId : String) (now : Nat) : IntakeResult × List NFCE :=
  match repoCreate store (newRequest key req newId now) with
  | Except.error e => (.badRequest ("failed to create NFC-e request: " ++ e), store)
  | Except.ok store2 => (.accepted (newRequest key req newId now), store2)

/-- `EmitNFce` from the use case: idempotency lookup first (authorized or
processing returns the existing view; rejected returns an error), any other
hit or a miss proceeds to create a fresh request. -/
def usecaseEmitNFce (store : List NFCE) (key : String) (req : EmitNFceRequest)
    (newId : String) (now : Nat) : IntakeResult × List NFCE :=
  match findByKey store key with
  | some existing =>
    if existing.status = .authorized ∨ existing.status = .processing then
      (.existingView existing, store)
    else if existing.status = .rejected then
      (.badRequest ("NFC-e already rejected: " ++ existing.rejectionMsg), store)
    else
      createAndPublish store key req newId now
  | none => createAndPublish store key req newId now

/-- The HTTP handler for `EmitNFce`: require the `Idempotency-Key` header,
bind and validate the JSON body, then invoke the use case; binding or use-case
failures surface as 400-class responses without touching the store. -/
def handlerEmitNFce (store : List NFCE) (idemKey : String)
    (req : EmitNFceRequest) (newId : String) (now : Nat) :
    IntakeResult × List NFCE :=
  if idemKey = "" then (.badRequest "Idempotency-Key header is required", store)
  else if validateBinding req then usecaseEmitNFce store idemKey req newId now
  else (.badRequest "binding validation failed", store)

/-! ### XMLDSig enveloped signature structure (signer package) -/

/-- A minimal XML element tree: name, attributes in creation order, child
elements in insertion order, text content. -/
inductive XmlElem where
  | mk (name : String) (attrs : List (String × String)) (children : List XmlElem)
      (text : String)

/-- Element name. -/
def XmlElem.name : XmlElem → String
  | .mk n _ _ _ => n

/-- Element attributes. -/
def XmlElem.attrs : XmlElem → List (String × String)
  | .mk _ a _ _ => a

/-- Child elements. -/
def XmlElem.children : XmlElem → List XmlElem
  | .mk _ _ c _ => c

/-- Text content. -/
def XmlElem.text : XmlElem → String
  | .mk _ _ _ t => t

/-- Attribute lookup, empty string when absent. -/
def XmlElem.attr (e : XmlElem) (key : String) : String :=
  (e.attrs.lookup key).getD ""

/-- Indexed child access, defaulting to an empty element. -/
def XmlElem.child (e : XmlElem) (i : Nat) : XmlElem :=
  e.children.getD i (.mk "" [] [] "")

/-- The XMLDSig namespace set on the `Signature` element. -/
def dsigNamespace : String := "http://www.w3.org/2000/09/xmldsig#"

/-- The canonicalization algorithm URI the signer writes (Canonical XML 1.0,
inclusive, comments omitted). -/
def c14nAlgorithm : String := "http://www.w3.org/TR/2001/REC-xml-c14n-20010315"

/-- The RSA-SHA256 signature method URI. -/
def rsaSha256Algorithm : String := "http://www.w3.org/2000/09/xmldsig#rsa-sha256"

/-- The enveloped-signature transform URI. -/
def envelopedSignatureAlgorithm : String :=
  "http://www.w3.org/2000/09/xmldsig#enveloped-signature"

/-- The SHA-256 digest method URI. -/
def sha256DigestAlgorithm : String := "http://www.w3.org/2001/04/xmlenc#sha256"

/-- Modelled from the spec: the exclusive C14N URI the specification names for
the second reference transform; it appears nowhere in the source. -/
def specExclusiveC14nAlgorithm : String := "http://www.w3.org/2001/10/xml-exc-c14n#"

/-- `createSignedInfo` from the signer: builds the `SignedInfo` subtree for the
element whose `Id` attribute is `idValue`.  `digestBase64` is in the source the
base64 SHA-256 digest of the canonicalized element, passed in by
`createSignature`. -/
def createSignedInfo (idValue digestBase64 : String) : XmlElem :=
  .mk "SignedInfo" []
    [ .mk "CanonicalizationMethod" [("Algorithm", c14nAlgorithm)] [] ""
    , .mk "SignatureMethod" [("Algorithm", rsaSha256Algorithm)] [] ""
    , .mk "Reference" [("URI", "#" ++ idValue)]
        [ .mk "Transforms" []
            [ .mk "Transform" [("Algorithm", envelopedSignatureAlgorithm)] [] ""
            , .mk "Transform" [("Algorithm", c14nAlgorithm)] [] "" ] ""
        , .mk "DigestMethod" [("Algorithm", sha256DigestAlgorithm)] [] ""
        , .mk "DigestValue" [] [] digestBase64 ] "" ] ""

/-- `createSignatureValue` from the signer. -/
def createSignatureValue (signature : String) : XmlElem :=
  .mk "SignatureValue" [] [] signature

/-- `createKeyInfo` from the signer: `KeyInfo / X509Data / X509Certificate`
whose text is the base64 DER of the signing certificate (`cert.Raw`). -/
def createKeyInfo (certRawBase64 : String) : XmlElem :=
  .mk "KeyInfo" []
    [ .mk "X509Data" [] [ .mk "X509Certificate" [] [] certRawBase64 ] "" ] ""

/-- `createSignature` from the signer: the appended `Signature` element.  The
digest, signature value and certificate payloads are parameters here; in the
source they are the base64 SHA-256 digest of the canonicalized element, the
base64 RSA-SHA256 signature of the canonicalized `SignedInfo`, and the base64
DER certificate (the cryptographic primitives themselves are not modelled). -/
def createSignature (idValue digestBase64 signatureValue certRawBase64 : String) :
    XmlElem :=
  .mk "Signature" [("xmlns", dsigNamespace)]
    [ createSignedInfo idValue digestBase64
    , createSignatureValue signatureValue
    , createKeyInfo certRawBase64 ] ""

/-! ### Concrete sample data shared by witnesses and counterexamples -/

/-- A well-formed issuer. -/
def sampleEmitente : Emitente := ⟨"12345678000195", "", "1", "000001", "TOKEN"⟩

/-- A single product line. -/
def sampleItem : Item := ⟨"Produto", "84713019", "5102", "", 299 / 10, 1, "UN"⟩

/-- A single payment matching the item total. -/
def samplePayment : Payment := ⟨"01", 299 / 10, 0⟩

/-- A well-formed emission request. -/
def sampleRequest : EmitNFceRequest :=
  ⟨"SP", "homologacao", sampleEmitente, [sampleItem], [samplePayment], ⟨false, false⟩⟩

/-- The same request with a single negative payment amount. -/
def negPaymentRequest : EmitNFceRequest :=
  { sampleRequest with pagamentos := [⟨"01", -5, 0⟩] }

/-- A request record in mid-processing with an untouched retry counter. -/
def sampleNFCE : NFCE :=
  ⟨"req-1", "key-1", .processing, sampleRequest, "", "", "", "", 0, none, false, "", 0⟩

/-! ## Supporting lemmas -/

theorem lookup_snd_sat (P : String → Prop) :
    ∀ (l : List (String × String)), (∀ p ∈ l, P p.2) →
      ∀ (a : String) (v : String), List.lookup a l = some v → P v := by
  intro l
  induction l with
  | nil => intro _ a v h; simp [List.lookup] at h
  | cons hd tl ih =>
    intro hall a v hl
    cases hk : (a == hd.1) with
    | true =>
      simp only [List.lookup, hk] at hl
      cases hl
      exact hall hd (List.mem_cons_self hd tl)
    | false =>
      simp only [List.lookup, hk] at hl
      exact ih (fun p hp => hall p (List.mem_cons_of_mem hd hp)) a v hl

theorem lookup_none_of_not_mem_keys :
    ∀ (l : List (String × String)) (a : String), a ∉ l.map Prod.fst →
      List.lookup a l = none := by
  intro l
  induction l with
  | nil => intro a _; simp [List.lookup]
  | cons hd tl ih =>
    intro a hna
    simp only [List.map, List.mem_cons] at hna
    push_neg at hna
    have hk : (a == hd.1) = false := beq_eq_false_iff_ne.mpr hna.1
    simp only [List.lookup, hk]
    exact ih a hna.2

theorem padLeftZero_length (w : Nat) (s : String) :
    (padLeftZero w s).length = max w s.length := by
  unfold padLeftZero
  split
  · rw [String.length_append]
    simp only [String.length]
    simp
    omega
  · omega

theorem padLeftZero_length_of_le {w : Nat} {s : String} (h : s.length ≤ w) :
    (padLeftZero w s).length = w := by
  rw [padLeftZero_length]; omega

theorem repr_len_le_two : ∀ n, n < 100 → (Nat.repr n).length ≤ 2 := by decide

theorem getCUF_length (uf : String) : (getCUF uf).length = 2 := by
  unfold getCUF
  cases h : List.lookup uf ufCodes with
  | none => rfl
  | some v =>
    simp only [Option.getD]
    exact lookup_snd_sat (fun s => s.length = 2) ufCodes (by decide) uf v h

theorem format0601_length (y m : Nat) (hm : m ≤ 12) :
    (format0601 y m).length = 4 := by
  unfold format0601
  rw [String.length_append]
  have h1 : (Nat.repr (y % 100)).length ≤ 2 :=
    repr_len_le_two _ (Nat.mod_lt _ (by norm_num))
  have h2 : (Nat.repr m).length ≤ 2 := repr_len_le_two _ (by omega)
  rw [padLeftZero_length_of_le h1, padLeftZero_length_of_le h2]

theorem calculateDV_length (s : String) : (CalculateDV s).length = 1 := by
  unfold CalculateDV
  split
  · split
    · rfl
    · rename_i hne
      have hlt : dvTotal s % 11 < 11 := Nat.mod_lt _ (by norm_num)
      have key : ∀ k, k < 11 → ¬(k = 0 ∨ k = 1) → (Nat.repr (11 - k)).length = 1 := by
        decide
      exact key _ hlt hne
  · rfl

/-! ## Claim theorems -/

/-- C1 (counterexample): with a 4-character series the claimed 44-character
layout fails even though the cleaned CNPJ has exactly 14 digits — Go's `%03s`
width is a minimum, so `GenerateChaveAcesso` returns a 45-character string
(whose final character is then the fallback `"0"` of `CalculateDV` on a
44-character prefix). -/
theorem generateChaveAcesso_serie_overflow :
    (GenerateChaveAcesso "SP" "12345678000195" "1234" "123" "1" "12345678" 26 10).map
        String.length = some 45 ∧
    (GenerateChaveAcesso "SP" "12345678000195" "1234" "123" "1" "12345678" 26 10).map
        String.length ≠ some 44 := by
  constructor
  · rfl
  · decide

/-- C1 (amended): when the cleaned CNPJ has exactly 14 digits and the series,
number, emission kind and random code fit their field widths,
`GenerateChaveAcesso` returns `chave ++ CalculateDV chave` where `chave` is the
43-character layout `cUF(2) yymm(4) cnpj(14) 65 serie(3) nNF(9) tpEmis(1)
cNF(8)`; the full key has 44 characters and its final character is the check
digit `CalculateDV` recomputes from the 43-character prefix. -/
theorem generateChaveAcesso_layout (uf cnpj serie nNF tpEmis cNF : String)
    (y m : Nat) (hcnpj : (cleanNumericOnly cnpj).length = 14)
    (hserie : serie.length ≤ 3) (hnNF : nNF.length ≤ 9)
    (htp : tpEmis.length ≤ 1) (hcNF : cNF.length ≤ 8) (hm : m ≤ 12) :
    ∃ chave : String,
      GenerateChaveAcesso uf cnpj serie nNF tpEmis cNF y m =
        some (chave ++ CalculateDV chave) ∧
      chave.length = 43 ∧
      (chave ++ CalculateDV chave).length = 44 ∧
      chave = padLeftZero 2 (getCUF uf) ++ padLeftZero 4 (format0601 y m) ++
        padLeftZero 14 (cleanNumericOnly cnpj) ++ "65" ++ padLeftZero 3 serie ++
        padLeftZero 9 nNF ++ padLeftZero 1 tpEmis ++ padLeftZero 8 cNF := by
  refine ⟨padLeftZero 2 (getCUF uf) ++ padLeftZero 4 (format0601 y m) ++
    padLeftZero 14 (cleanNumericOnly cnpj) ++ "65" ++ padLeftZero 3 serie ++
    padLeftZero 9 nNF ++ padLeftZero 1 tpEmis ++ padLeftZero 8 cNF, ?_, ?_, ?_, rfl⟩
  · simp only [GenerateChaveAcesso]
    rw [if_pos hcnpj]
  · have l1 := padLeftZero_length_of_le (le_of_eq (getCUF_length uf))
    have l2 := padLeftZero_length_of_le (le_of_eq (format0601_length y m hm))
    have l3 := padLeftZero_length_of_le (le_of_eq hcnpj)
    have l4 : ("65" : String).length = 2 := rfl
    have l5 := padLeftZero_length_of_le hserie
    have l6 := padLeftZero_length_of_le hnNF
    have l7 := padLeftZero_length_of_le htp
    have l8 := padLeftZero_length_of_le hcNF
    simp only [String.length_append, l1, l2, l3, l4, l5, l6, l7, l8]
  · have l1 := padLeftZero_length_of_le (le_of_eq (getCUF_length uf))
    have l2 := padLeftZero_length_of_le (le_of_eq (format0601_length y m hm))
    have l3 := padLeftZero_length_of_le (le_of_eq hcnpj)
    have l4 : ("65" : String).length = 2 := rfl
    have l5 := padLeftZero_length_of_le hserie
    have l6 := padLeftZero_length_of_le hnNF
    have l7 := padLeftZero_length_of_le htp
    have l8 := padLeftZero_length_of_le hcNF
    rw [String.length_append, calculateDV_length]
    simp only [String.length_append, l1, l2, l3, l4, l5, l6, l7, l8]

/-- C1 (witness): the amended theorem at a concrete input. -/
theorem generateChaveAcesso_layout_witness :
    ∃ chave : String,
      GenerateChaveAcesso "SP" "12.345.678/0001-95" "001" "000000001" "1"
          "12345678" 26 10 =
        some (chave ++ CalculateDV chave) ∧
      chave.length = 43 ∧
      (chave ++ CalculateDV chave).length = 44 ∧
      chave = padLeftZero 2 (getCUF "SP") ++ padLeftZero 4 (format0601 26 10) ++
        padLeftZero 14 (cleanNumericOnly "12.345.678/0001-95") ++ "65" ++
        padLeftZero 3 "001" ++ padLeftZero 9 "000000001" ++ padLeftZero 1 "1" ++
        padLeftZero 8 "12345678" :=
  generateChaveAcesso_layout "SP" "12.345.678/0001-95" "001" "000000001" "1"
    "12345678" 26 10 (by decide) (by decide) (by decide) (by decide) (by decide)
    (by decide)

/-- C10: for any UF string outside the 27-entry tables, `getCUF` falls back to
`"35"` and `getMunicipioFG` to `"3550308"` (the São Paulo codes), so neither
helper can fail on an unknown state code. -/
theorem unknown_uf_defaults_to_sp (uf : String)
    (h : uf ∉ ufCodes.map Prod.fst) :
    getCUF uf = "35" ∧ getMunicipioFG uf = "3550308" := by
  have hm : uf ∉ municipios.map Prod.fst := by
    have hkeys : municipios.map Prod.fst = ufCodes.map Prod.fst := by decide
    rw [hkeys]; exact h
  constructor
  · unfold getCUF
    rw [lookup_none_of_not_mem_keys ufCodes uf h]
    rfl
  · unfold getMunicipioFG
    rw [lookup_none_of_not_mem_keys municipios uf hm]
    rfl

/-- C10 (witness): the defaults at the concrete unknown UF `"ZZ"`. -/
theorem unknown_uf_defaults_to_sp_witness :
    getCUF "ZZ" = "35" ∧ getMunicipioFG "ZZ" = "3550308" :=
  unknown_uf_defaults_to_sp "ZZ" (by decide)

theorem calculateBackoffDelay_succ (r : Nat) :
    calculateBackoffDelay ((r + 1 : Nat) : Int) =
      some (if r + 1 ≤ 6 then baseDelays.getD r 0 else 86400) := by
  by_cases h : r + 1 ≤ 6
  · rw [if_pos h]
    have h5 : r ≤ 5 := by omega
    interval_cases r <;> decide
  · rw [if_neg h]
    unfold calculateBackoffDelay
    rw [if_neg (by omega)]

theorem scheduleRetry_eq (n : NFCE) (now : Nat) :
    scheduleRetry n now = some { n with
      retryCount := n.retryCount + 1
      status := .retrying
      nextRetryAt := some (now +
        (if n.retryCount + 1 ≤ 6 then baseDelays.getD n.retryCount 0 else 86400)) } := by
  unfold scheduleRetry
  simp only [IncrementRetry]
  rw [calculateBackoffDelay_succ]

theorem canRetry_true_bounds {n : NFCE} {mr now : Nat}
    (h : CanRetry n mr now = true) :
    n.retryCount < mr ∧ now - n.createdAt ≤ 48 * 3600 := by
  unfold CanRetry at h
  split at h
  · cases h
  · split at h
    · cases h
    · split at h
      · cases h
      · omega

theorem canRetry_false_of_exhausted {n : NFCE} {mr now : Nat}
    (h : mr ≤ n.retryCount ∨ 48 * 3600 < now - n.createdAt) :
    CanRetry n mr now = false := by
  unfold CanRetry
  split
  · rfl
  · split
    · rfl
    · split
      · rfl
      · exfalso; rcases h with h | h <;> omega

/-- C4: the worker's failure branch keeps `RetryCount ≤ MaxRetries` invariant,
and when one more retry would exceed the budget or the request is older than
48 hours it marks the request rejected with the synthetic code `999` and
reason, leaving `NextRetryAt` untouched instead of scheduling a retry. -/
theorem worker_retry_budget (st : NFCE) (mr now : Nat)
    (hle : st.retryCount ≤ mr) :
    ∃ st', handleEmissionFailure st mr now = some st' ∧ st'.retryCount ≤ mr ∧
      ((mr ≤ st.retryCount ∨ 48 * 3600 < now - st.createdAt) →
        st'.status = .rejected ∧ st'.rejectionCode = "999" ∧
        st'.rejectionMsg = "Número máximo de tentativas excedido" ∧
        st'.nextRetryAt = st.nextRetryAt ∧ st'.retryCount = st.retryCount) := by
  unfold handleEmissionFailure
  by_cases hcr : CanRetry st mr now = true
  · have hb := canRetry_true_bounds hcr
    rw [if_pos hcr, scheduleRetry_eq]
    refine ⟨_, rfl, ?_, ?_⟩
    · have : st.retryCount < mr := hb.1
      simp only []
      omega
    · intro hex
      exfalso
      rcases hex with h | h
      · omega
      · omega
  · rw [if_neg hcr]
    exact ⟨_, rfl, hle, fun _ => ⟨rfl, rfl, rfl, rfl, rfl⟩⟩

/-- C4 (witness): a request whose counter already equals the budget is
rejected with the synthetic reason. -/
theorem worker_retry_budget_witness :
    ∃ st', handleEmissionFailure { sampleNFCE with retryCount := 5 } 5 0 = some st' ∧
      st'.retryCount ≤ 5 ∧
      ((5 ≤ ({ sampleNFCE with retryCount := 5 } : NFCE).retryCount ∨
          48 * 3600 < 0 - ({ sampleNFCE with retryCount := 5 } : NFCE).createdAt) →
        st'.status = .rejected ∧ st'.rejectionCode = "999" ∧
        st'.rejectionMsg = "Número máximo de tentativas excedido" ∧
        st'.nextRetryAt = ({ sampleNFCE with retryCount := 5 } : NFCE).nextRetryAt ∧
        st'.retryCount = ({ sampleNFCE with retryCount := 5 } : NFCE).retryCount) :=
  worker_retry_budget { sampleNFCE with retryCount := 5 } 5 0 (by decide)

/-- C5: scheduling the n-th retry (n = incremented `RetryCount`) stamps
`NextRetryAt` exactly `baseDelays[n-1]` seconds after now while `n ≤ 6`, and
24 hours (86400 s) for every later retry. -/
theorem backoff_schedule (st : NFCE) (now : Nat) :
    ∃ st', scheduleRetry st now = some st' ∧
      st'.retryCount = st.retryCount + 1 ∧ st'.status = .retrying ∧
      st'.nextRetryAt = some (now +
        (if st.retryCount + 1 ≤ 6 then baseDelays.getD st.retryCount 0 else 86400)) := by
  rw [scheduleRetry_eq]
  exact ⟨_, rfl, rfl, rfl, rfl⟩

/-- C5 (witness): the first retry of a fresh request is due 60 seconds later. -/
theorem backoff_schedule_witness :
    ∃ st', scheduleRetry sampleNFCE 1000 = some st' ∧
      st'.retryCount = sampleNFCE.retryCount + 1 ∧ st'.status = .retrying ∧
      st'.nextRetryAt = some (1000 +
        (if sampleNFCE.retryCount + 1 ≤ 6 then baseDelays.getD sampleNFCE.retryCount 0
         else 86400)) :=
  backoff_schedule sampleNFCE 1000

/-- C9: `scheduleRetry` increments the counter before computing the backoff,
so the table index `retryCount - 1` is always in bounds and the lookup never
fails; calling `calculateBackoffDelay` with a raw counter of `0` would index
position `-1` and panic (modelled as `none`). -/
theorem backoff_index_in_bounds (st : NFCE) (now : Nat) :
    (scheduleRetry st now).isSome = true ∧ calculateBackoffDelay 0 = none := by
  refine ⟨?_, rfl⟩
  rw [scheduleRetry_eq]
  rfl

/-- C9 (witness): the in-bounds fact at a concrete request. -/
theorem backoff_index_in_bounds_witness :
    (scheduleRetry sampleNFCE 0).isSome = true ∧ calculateBackoffDelay 0 = none :=
  backoff_index_in_bounds sampleNFCE 0

/-- C2 (code evaluated at the failing input): `determineStatus` files `cStat`
108 and 109 under the `"authorized"` bucket, so the emission pipeline takes
the authorization branch for them and the contingency switch — whose own code
table lists 108 and 109 as contingency triggers — is unreachable for those
codes; only the 5xx range actually reaches it (SVC-AN, or SVC-RS for RS). -/
theorem cstat108_classified_authorized :
    determineStatus "108" = "authorized" ∧
    responseDecision "SP" false "108" = .authorizedOutcome ∧
    responseDecision "SP" false "109" = .authorizedOutcome ∧
    shouldUseContingency "108" = true ∧
    shouldUseContingency "109" = true ∧
    responseDecision "SP" false "503" = .contingencySwitch "SVC-AN" ∧
    responseDecision "RS" false "503" = .contingencySwitch "SVC-RS" ∧
    responseDecision "SP" true "503" = .retryableFailure := by
  refine ⟨rfl, ?_, ?_, rfl, rfl, ?_, ?_, ?_⟩ <;> decide

/-- C3 (counterexample): a `cStat` 204 response is classified retryable, so
the request is not terminally rejected: the worker schedules a retry 60
seconds out and the status becomes `retrying`, with no rejection code set. -/
theorem cstat204_retry_scheduled :
    responseDecision "SP" false "204" = .retryableFailure ∧
    IsRetryableError "204" = true ∧
    (handleEmissionFailure sampleNFCE 5 0).map NFCE.status = some .retrying ∧
    (handleEmissionFailure sampleNFCE 5 0).map NFCE.nextRetryAt = some (some 60) ∧
    (handleEmissionFailure sampleNFCE 5 0).map NFCE.rejectionCode = some "" := by
  refine ⟨by decide, rfl, ?_, ?_, ?_⟩ <;> rfl

/-- C3 (amended): `cStat` 204 falls in the retryable table, so the service
returns a retryable error without marking the request rejected, and while the
retry budget allows the worker moves it to `retrying` with its rejection code
unchanged; it is not terminally rejected with code 204. -/
theorem cstat204_retryable (uf : String) (c : Bool) (st : NFCE) (mr now : Nat)
    (h : CanRetry st mr now = true) :
    responseDecision uf c "204" = .retryableFailure ∧
    ∃ st', handleEmissionFailure st mr now = some st' ∧
      st'.status = .retrying ∧ st'.rejectionCode = st.rejectionCode := by
  constructor
  · unfold responseDecision
    rw [if_neg (by decide : ¬ determineStatus "204" = "authorized"),
      if_neg (by decide : ¬ determineStatus "204" = "denied")]
    rw [show shouldUseContingency "204" = false from rfl]
    rw [if_neg (by simp), if_pos (by decide : IsRetryableError "204" = true)]
  · unfold handleEmissionFailure
    rw [if_pos h, scheduleRetry_eq]
    exact ⟨_, rfl, rfl, rfl⟩

/-- C3 (witness): the amended behaviour at a concrete fresh request. -/
theorem cstat204_retryable_witness :
    responseDecision "SP" false "204" = .retryableFailure ∧
    ∃ st', handleEmissionFailure sampleNFCE 5 0 = some st' ∧
      st'.status = .retrying ∧ st'.rejectionCode = sampleNFCE.rejectionCode :=
  cstat204_retryable "SP" false sampleNFCE 5 0 (by decide)

theorem newRequest_idemKey (key : String) (req : EmitNFceRequest)
    (newId : String) (now : Nat) :
    (newRequest key req newId now).idempotencyKey = key := rfl

theorem findByKey_some_any {store : List NFCE} {key : String} {ex : NFCE}
    (h : findByKey store key = some ex) :
    (store.any fun m => m.idempotencyKey == key) = true := by
  unfold findByKey at h
  have hp := List.find?_some h
  exact List.any_eq_true.mpr ⟨ex, List.mem_of_find?_eq_some h, hp⟩

theorem findByKey_none_count {store : List NFCE} {key : String}
    (h : findByKey store key = none) : countKey store key = 0 := by
  unfold findByKey at h
  unfold countKey
  rw [List.length_eq_zero, List.filter_eq_nil_iff]
  exact List.find?_eq_none.mp h

theorem findByKey_none_any {store : List NFCE} {key : String}
    (h : findByKey store key = none) :
    (store.any fun m => m.idempotencyKey == key) = false := by
  unfold findByKey at h
  rw [Bool.eq_false_iff]
  intro hany
  obtain ⟨m, hm, hp⟩ := List.any_eq_true.mp hany
  exact (List.find?_eq_none.mp h m hm) hp

theorem usecaseEmitNFce_eq_some {store : List NFCE} {key : String} {ex : NFCE}
    (req : EmitNFceRequest) (newId : String) (now : Nat)
    (h : findByKey store key = some ex) :
    usecaseEmitNFce store key req newId now =
      (if ex.status = .authorized ∨ ex.status = .processing then
        (.existingView ex, store)
      else if ex.status = .rejected then
        (.badRequest ("NFC-e already rejected: " ++ ex.rejectionMsg), store)
      else createAndPublish store key req newId now) := by
  unfold usecaseEmitNFce
  rw [h]

theorem usecaseEmitNFce_eq_none {store : List NFCE} {key : String}
    (req : EmitNFceRequest) (newId : String) (now : Nat)
    (h : findByKey store key = none) :
    usecaseEmitNFce store key req newId now =
      createAndPublish store key req newId now := by
  unfold usecaseEmitNFce
  rw [h]

theorem createAndPublish_dup {store : List NFCE} {key : String}
    (req : EmitNFceRequest) (newId : String) (now : Nat)
    (h : (store.any fun m => m.idempotencyKey == key) = true) :
    createAndPublish store key req newId now =
      (.badRequest ("failed to create NFC-e request: " ++
        "duplicate key value violates unique constraint"), store) := by
  unfold createAndPublish repoCreate
  simp only [newRequest_idemKey]
  rw [if_pos h]

theorem createAndPublish_fresh {store : List NFCE} {key : String}
    (req : EmitNFceRequest) (newId : String) (now : Nat)
    (h : (store.any fun m => m.idempotencyKey == key) = false) :
    createAndPublish store key req newId now =
      (.accepted (newRequest key req newId now),
        newRequest key req newId now :: store) := by
  unfold createAndPublish repoCreate
  simp only [newRequest_idemKey]
  rw [if_neg (by rw [h]; exact Bool.false_ne_true)]

/-- C8: intake never lets a second request share an idempotency key (the
`UNIQUE` column turns a duplicate insert into an error), an existing record in
`processing` or `authorized` is returned as-is with no new request created,
and an existing `rejected` record yields a rejection error with no new request
created. -/
theorem intake_idempotency (store : List NFCE) (key : String)
    (req : EmitNFceRequest) (newId : String) (now : Nat) :
    (countKey store key ≤ 1 →
      countKey (handlerEmitNFce store key req newId now).2 key ≤ 1) ∧
    ∀ ex, findByKey store key = some ex →
      ((ex.status = .authorized ∨ ex.status = .processing) →
        usecaseEmitNFce store key req newId now = (.existingView ex, store)) ∧
      (ex.status = .rejected →
        usecaseEmitNFce store key req newId now =
          (.badRequest ("NFC-e already rejected: " ++ ex.rejectionMsg), store)) := by
  constructor
  · intro h1
    unfold handlerEmitNFce
    by_cases hk : key = ""
    · rw [if_pos hk]; exact h1
    · rw [if_neg hk]
      by_cases hv : validateBinding req = true
      · rw [if_pos hv]
        cases hfind : findByKey store key with
        | some ex =>
          rw [usecaseEmitNFce_eq_some req newId now hfind]
          by_cases hst : ex.status = .authorized ∨ ex.status = .processing
          · rw [if_pos hst]; exact h1
          · rw [if_neg hst]
            by_cases hrj : ex.status = .rejected
            · rw [if_pos hrj]; exact h1
            · rw [if_neg hrj, createAndPublish_dup req newId now
                (findByKey_some_any hfind)]
              exact h1
        | none =>
          rw [usecaseEmitNFce_eq_none req newId now hfind,
            createAndPublish_fresh req newId now (findByKey_none_any hfind)]
          have h0 : countKey store key = 0 := findByKey_none_count hfind
          unfold countKey at h0 ⊢
          rw [List.filter_cons_of_pos (by exact beq_self_eq_true key)]
          simp only [List.length_cons, h0]
          omega
      · rw [if_neg hv]; exact h1
  · intro ex hex
    constructor
    · intro hst
      rw [usecaseEmitNFce_eq_some req newId now hex, if_pos hst]
    · intro hrj
      rw [usecaseEmitNFce_eq_some req newId now hex,
        if_neg (by rintro (h | h) <;> rw [hrj] at h <;> cases h), if_pos hrj]

/-- C8 (witness): a replay against a store holding one authorized record under
the key returns the existing view and leaves the store unchanged. -/
theorem intake_idempotency_witness :
    (countKey [{ sampleNFCE with status := .authorized }] "key-1" ≤ 1 →
      countKey (handlerEmitNFce [{ sampleNFCE with status := .authorized }] "key-1"
        sampleRequest "id-2" 5).2 "key-1" ≤ 1) ∧
    ∀ ex, findByKey [{ sampleNFCE with status := .authorized }] "key-1" = some ex →
      ((ex.status = .authorized ∨ ex.status = .processing) →
        usecaseEmitNFce [{ sampleNFCE with status := .authorized }] "key-1"
          sampleRequest "id-2" 5 = (.existingView ex,
            [{ sampleNFCE with status := .authorized }])) ∧
      (ex.status = .rejected →
        usecaseEmitNFce [{ sampleNFCE with status := .authorized }] "key-1"
          sampleRequest "id-2" 5 =
          (.badRequest ("NFC-e already rejected: " ++ ex.rejectionMsg),
            [{ sampleNFCE with status := .authorized }])) :=
  intake_idempotency [{ sampleNFCE with status := .authorized }] "key-1"
    sampleRequest "id-2" 5

/-- C7 (counterexample): a payload with a negative payment amount passes the
binding checks, so intake accepts it with HTTP 202 and persists a new pending
request — no `InvalidPayload` rejection happens. -/
theorem negative_payment_accepted :
    (handlerEmitNFce [] "key-1" negPaymentRequest "id-1" 0).1 =
      .accepted (newRequest "key-1" negPaymentRequest "id-1" 0) ∧
    (handlerEmitNFce [] "key-1" negPaymentRequest "id-1" 0).2 =
      [newRequest "key-1" negPaymentRequest "id-1" 0] ∧
    negPaymentRequest.pagamentos.map Payment.valor = [-5] ∧
    (-5 : Rat) < 0 := by
  refine ⟨rfl, rfl, rfl, by norm_num⟩

/-- C7 (amended): intake rejects payloads that fail the gin binding rules —
no line items, or an environment outside {producao, homologacao} — with a
400-class error and persists nothing; payment amounts and totals are not
validated at intake. -/
theorem intake_binding_validation (store : List NFCE) (key : String)
    (req : EmitNFceRequest) (newId : String) (now : Nat)
    (h : req.itens = [] ∨ (req.ambiente ≠ "producao" ∧ req.ambiente ≠ "homologacao")) :
    ∃ m, handlerEmitNFce store key req newId now = (.badRequest m, store) := by
  have hv : validateBinding req = false := by
    unfold validateBinding
    rcases h with h | h
    · rw [h]
      simp
    · rw [beq_eq_false_iff_ne.mpr h.1, beq_eq_false_iff_ne.mpr h.2]
      simp
  unfold handlerEmitNFce
  by_cases hk : key = ""
  · rw [if_pos hk]
    exact ⟨_, rfl⟩
  · rw [if_neg hk, if_neg (by rw [hv]; exact Bool.false_ne_true)]
    exact ⟨_, rfl⟩

/-- C7 (witness): a payload with zero line items is rejected without
persisting a request. -/
theorem intake_binding_validation_witness :
    ∃ m, handlerEmitNFce [] "key-1" { sampleRequest with itens := [] } "id-1" 0 =
      (.badRequest m, []) :=
  intake_binding_validation [] "key-1" { sampleRequest with itens := [] } "id-1" 0
    (Or.inl rfl)

/-- C6 (counterexample): the second reference transform the signer writes is
the inclusive Canonical XML 1.0 URI, not the exclusive C14N URI the claim
names. -/
theorem signature_transform_not_exclusive :
    (((((createSignature "NFe35X" "ZGln" "c2ln" "Y2VydA==").child 0).child 2).child 0).child
        1).attr "Algorithm" = c14nAlgorithm ∧
    c14nAlgorithm ≠ specExclusiveC14nAlgorithm := by
  exact ⟨rfl, by decide⟩

/-- C6 (amended): the appended `Signature` element references `#<Id>`, its
transforms are enveloped-signature followed by inclusive Canonical XML 1.0
(comments omitted) — not exclusive C14N — the digest method is SHA-256, the
signature method RSA-SHA256, and `KeyInfo` holds exactly one `X509Data` with
exactly one `X509Certificate` whose text is the base64 DER certificate. -/
theorem signature_structure (idValue digestBase64 signatureValue certRawBase64 : String) :
    (((createSignature idValue digestBase64 signatureValue certRawBase64).child 0).child 2).attr
        "URI" = "#" ++ idValue ∧
    ((((createSignature idValue digestBase64 signatureValue certRawBase64).child 0).child 2).child
        0).children.length = 2 ∧
    (((((createSignature idValue digestBase64 signatureValue certRawBase64).child 0).child 2).child
        0).child 0).attr "Algorithm" = envelopedSignatureAlgorithm ∧
    (((((createSignature idValue digestBase64 signatureValue certRawBase64).child 0).child 2).child
        0).child 1).attr "Algorithm" = c14nAlgorithm ∧
    ((((createSignature idValue digestBase64 signatureValue certRawBase64).child 0).child 2).child
        1).attr "Algorithm" = sha256DigestAlgorithm ∧
    ((((createSignature idValue digestBase64 signatureValue certRawBase64).child 0).child 2).child
        2).text = digestBase64 ∧
    (((createSignature idValue digestBase64 signatureValue certRawBase64).child 0).child 1).attr
        "Algorithm" = rsaSha256Algorithm ∧
    ((createSignature idValue digestBase64 signatureValue certRawBase64).child 2).name =
        "KeyInfo" ∧
    ((createSignature idValue digestBase64 signatureValue certRawBase64).child 2).children.length =
        1 ∧
    (((createSignature idValue digestBase64 signatureValue certRawBase64).child 2).child 0).name =
        "X509Data" ∧
    (((createSignature idValue digestBase64 signatureValue certRawBase64).child 2).child
        0).children.length = 1 ∧
    ((((createSignature idValue digestBase64 signatureValue certRawBase64).child 2).child 0).child
        0).name = "X509Certificate" ∧
    ((((createSignature idValue digestBase64 signatureValue certRawBase64).child 2).child 0).child
        0).text = certRawBase64 := by
  exact ⟨rfl, rfl, rfl, rfl, rfl, rfl, rfl, rfl, rfl, rfl, rfl, rfl, rfl⟩

/-- C6 (witness): the structural contract at concrete payloads. -/
theorem signature_structure_witness :
    (((createSignature "NFe1" "D" "S" "C").child 0).child 2).attr "URI" = "#" ++ "NFe1" ∧
    ((((createSignature "NFe1" "D" "S" "C").child 0).child 2).child 0).children.length = 2 ∧
    (((((createSignature "NFe1" "D" "S" "C").child 0).child 2).child 0).child 0).attr
        "Algorithm" = envelopedSignatureAlgorithm ∧
    (((((createSignature "NFe1" "D" "S" "C").child 0).child 2).child 0).child 1).attr
        "Algorithm" = c14nAlgorithm ∧
    ((((createSignature "NFe1" "D" "S" "C").child 0).child 2).child 1).attr "Algorithm" =
        sha256DigestAlgorithm ∧
    ((((createSignature "NFe1" "D" "S" "C").child 0).child 2).child 2).text = "D" ∧
    (((createSignature "NFe1" "D" "S" "C").child 0).child 1).attr "Algorithm" =
        rsaSha256Algorithm ∧
    ((createSignature "NFe1" "D" "S" "C").child 2).name = "KeyInfo" ∧
    ((createSignature "NFe1" "D" "S" "C").child 2).children.length = 1 ∧
    (((createSignature "NFe1" "D" "S" "C").child 2).child 0).name = "X509Data" ∧
    (((createSignature "NFe1" "D" "S" "C").child 2).child 0).children.length = 1 ∧
    ((((createSignature "NFe1" "D" "S" "C").child 2).child 0).child 0).name =
        "X509Certificate" ∧
    ((((createSignature "NFe1" "D" "S" "C").child 2).child 0).child 0).text = "C" :=
  signature_structure "NFe1" "D" "S" "C"

end PlugNFCe
